import Mathlib

/-!
# AdSphere — Campaign Creation: shallow embedding and verification

This file embeds the Campaign Creation feature of the AdSphere repository:

* the domain state types (`campaign.state.ts`),
* the validation rules (`campaign.rules.ts`),
* the state machine (`campaign.machine.ts`),
* the validate use case (`validateCampaign.usecase.ts`),
* the HH:mm regex of the boundary contract (`campaign.schema.ts`, `TimeSlotSchema`),

and proves the testable properties stated in the project's specification.

Modelling conventions:
* TypeScript `number` fields compared against numeric limits (`sizeInMb`)
  are modelled as `ℚ`; the comparisons involved are exact.
* Strings are Lean `String`s; character tests are written over `Char.toNat`
  code points (`'0'` = 48 … `'9'` = 57, `':'` = 58) so that decision
  procedures apply.
* The TypeScript non-empty tuple type `[T, ...T[]]` on
  `CampaignValidationResult.invalid` is modelled as an explicit head element
  plus a list of further elements, exactly as the source constructs it
  (`[errors[0]!, ...errors.slice(1)]`); the `errors` field of the `invalid`
  *state* is modelled as a plain list, its non-emptiness being one of the
  invariants proved below.
* `Date.parse` is a JavaScript builtin; it is modelled here restricted to
  ISO 8601 date and UTC date-time strings (the format the repository uses),
  returning milliseconds since the Unix epoch.
-/

-- ── Domain state types (campaign.state.ts) ──────────────────────────────────

/-- A slot `{startTime, endTime}`, both HH:mm 24-hour strings. -/
structure TimeSlot where
  startTime : String
  endTime : String
deriving DecidableEq

/-- `{url, type, sizeInMb}`. The TS `type` field is the union
`"image" | "video"`; at runtime it is a string and the rule validator keeps a
guard for runtime data crossing the boundary, so it is modelled as `String`. -/
structure MediaAsset where
  url : String
  type : String
  sizeInMb : ℚ
deriving DecidableEq

/-- The working draft of a campaign being authored. -/
structure CampaignDraft where
  name : String
  startDate : String
  endDate : String
  screenIds : List String
  timeSlots : List TimeSlot
  mediaAsset : MediaAsset
deriving DecidableEq

/-- The closed enumeration of validation error codes. -/
inductive ValidationErrorCode where
  | EMPTY_NAME
  | INVALID_DATE_RANGE
  | INVALID_DATE_FORMAT
  | OVERLAPPING_TIME_SLOTS
  | EMPTY_SCREEN_SELECTION
  | MEDIA_SIZE_EXCEEDS_LIMIT
  | MEDIA_TYPE_NOT_ALLOWED
  | INVALID_TIME_FORMAT
deriving DecidableEq

/-- `{code, message}`. -/
structure ValidationError where
  code : ValidationErrorCode
  message : String
deriving DecidableEq

/-- `{message}`. -/
structure SystemError where
  message : String
deriving DecidableEq

/-- `CampaignValidationResult` (campaign.validation.ts).  The `invalid`
variant's `errors` field has the TS non-empty tuple type
`[ValidationError, ...ValidationError[]]`, modelled as head plus rest. -/
inductive CampaignValidationResult where
  | invalid (e0 : ValidationError) (rest : List ValidationError)
  | conflict
  | valid
deriving DecidableEq

/-- The tagged union `CampaignCreationState`. -/
inductive CampaignCreationState where
  | idle
  | editing (draft : CampaignDraft)
  | validating (draft : CampaignDraft)
  | invalid (draft : CampaignDraft) (errors : List ValidationError)
  | conflict_detected (draft : CampaignDraft)
  | ready_to_publish (draft : CampaignDraft)
  | published (campaignId : String)
  | error (error : SystemError)
deriving DecidableEq

-- ── Rule validator helpers (campaign.rules.ts) ──────────────────────────────

/-- `makeError(code, message)`. -/
def makeError (code : ValidationErrorCode) (message : String) : ValidationError :=
  ⟨code, message⟩

/-- `\d` of the regexes: code points 48 (`'0'`) through 57 (`'9'`). -/
def isDigitChar (c : Char) : Bool :=
  48 ≤ c.toNat && c.toNat ≤ 57

/-- Numeric value of a digit character, as `parseInt` computes it. -/
def digitVal (c : Char) : Nat :=
  c.toNat - 48

/--
`parseHHmm` (campaign.rules.ts): matches `^(\d{2}):(\d{2})$`, rejects
hours > 23 or minutes > 59, and returns total minutes since midnight.
The source returns `NaN` on failure; failure is modelled as `none`.
`':'` is code point 58.
-/
def parseHHmm (value : String) : Option Nat :=
  match value.data with
  | [h1, h2, c, m1, m2] =>
    if c.toNat == 58 && isDigitChar h1 && isDigitChar h2
        && isDigitChar m1 && isDigitChar m2 then
      let hours := 10 * digitVal h1 + digitVal h2
      let minutes := 10 * digitVal m1 + digitVal m2
      if hours > 23 || minutes > 59 then none
      else some (hours * 60 + minutes)
    else none
  | _ => none

/-- JavaScript `String.prototype.trim` whitespace: space, tab, LF, VT, FF,
CR, NBSP (and other Unicode space separators, of which NBSP is the only one
reachable from this repository's inputs). -/
def isJsWhitespace (c : Char) : Bool :=
  c.toNat == 32 || c.toNat == 9 || c.toNat == 10 || c.toNat == 11
    || c.toNat == 12 || c.toNat == 13 || c.toNat == 160

/-- `value.trim()`, on the character list of the string. -/
def jsTrim (l : List Char) : List Char :=
  ((l.dropWhile isJsWhitespace).reverse.dropWhile isJsWhitespace).reverse

-- ── Date.parse model ────────────────────────────────────────────────────────

/-- Days in a month of the proleptic Gregorian calendar. -/
def daysInMonth (y m : Nat) : Nat :=
  if m = 2 then
    (if (y % 4 = 0 && y % 100 ≠ 0) || y % 400 = 0 then 29 else 28)
  else if m = 4 || m = 6 || m = 9 || m = 11 then 30 else 31

/-- Days from 1970-01-01 to year `y`, month `m`, day `d`
(civil-from-days algorithm, floor division throughout). -/
def daysFromCivil (y m d : Int) : Int :=
  let yAdj : Int := if m ≤ 2 then y - 1 else y
  let era : Int := Int.fdiv yAdj 400
  let yoe : Int := yAdj - era * 400
  let mp : Int := if m > 2 then m - 3 else m + 9
  let doy : Int := Int.fdiv (153 * mp + 2) 5 + d - 1
  let doe : Int := yoe * 365 + Int.fdiv yoe 4 - Int.fdiv yoe 100 + doy
  era * 146097 + doe - 719468

/-- Time-of-day part of the ISO strings fed to `Date.parse`:
empty (midnight), or `THH:mmZ`, or `THH:mm:ssZ`.  Milliseconds. -/
def parseIsoTime (l : List Char) : Option Int :=
  match l with
  | [] => some 0
  | 'T' :: h1 :: h2 :: ':' :: m1 :: m2 :: rest =>
    if isDigitChar h1 && isDigitChar h2 && isDigitChar m1 && isDigitChar m2 then
      let h := 10 * digitVal h1 + digitVal h2
      let mi := 10 * digitVal m1 + digitVal m2
      if h ≤ 23 && mi ≤ 59 then
        match rest with
        | ['Z'] => some ((h * 3600000 : Int) + mi * 60000)
        | ':' :: s1 :: s2 :: ['Z'] =>
          if isDigitChar s1 && isDigitChar s2 then
            let sec := 10 * digitVal s1 + digitVal s2
            if sec ≤ 59 then
              some ((h * 3600000 : Int) + mi * 60000 + sec * 1000)
            else none
          else none
        | _ => none
      else none
    else none
  | _ => none

/--
Model of the JavaScript `Date.parse` builtin, restricted to ISO 8601
`YYYY-MM-DD`, `YYYY-MM-DDTHH:mmZ` and `YYYY-MM-DDTHH:mm:ssZ` strings (the
formats this repository feeds it); returns milliseconds since the Unix epoch.
The builtin returns `NaN` on unparseable input; that is modelled as `none`.
-/
def dateParse (s : String) : Option Int :=
  match s.data with
  | y1 :: y2 :: y3 :: y4 :: '-' :: mo1 :: mo2 :: '-' :: d1 :: d2 :: rest =>
    if isDigitChar y1 && isDigitChar y2 && isDigitChar y3 && isDigitChar y4
        && isDigitChar mo1 && isDigitChar mo2 && isDigitChar d1 && isDigitChar d2 then
      let y := 1000 * digitVal y1 + 100 * digitVal y2 + 10 * digitVal y3 + digitVal y4
      let mo := 10 * digitVal mo1 + digitVal mo2
      let d := 10 * digitVal d1 + digitVal d2
      if 1 ≤ mo && mo ≤ 12 && 1 ≤ d && d ≤ daysInMonth y mo then
        match parseIsoTime rest with
        | some ms => some (daysFromCivil y mo d * 86400000 + ms)
        | none => none
      else none
    else none
  | _ => none

-- ── Individual rule validators (campaign.rules.ts) ──────────────────────────

/-- Rule 1: `name.trim().length === 0` → `EMPTY_NAME`. -/
def validateName (draft : CampaignDraft) : List ValidationError :=
  if (jsTrim draft.name.data).length = 0 then
    [makeError .EMPTY_NAME "Campaign name must not be empty."]
  else []

/-- Rule 2: parse both dates; unparseable → `INVALID_DATE_FORMAT`;
otherwise `start >= end` → `INVALID_DATE_RANGE`. -/
def validateDateRange (draft : CampaignDraft) : List ValidationError :=
  match dateParse draft.startDate, dateParse draft.endDate with
  | some start, some endMs =>
    if start ≥ endMs then
      [makeError .INVALID_DATE_RANGE "startDate must be before endDate."]
    else []
  | _, _ =>
    [makeError .INVALID_DATE_FORMAT
      "startDate and endDate must be valid ISO 8601 strings."]

/-- Rule 3: `screenIds.length === 0` → `EMPTY_SCREEN_SELECTION`. -/
def validateScreenIds (draft : CampaignDraft) : List ValidationError :=
  if draft.screenIds.length = 0 then
    [makeError .EMPTY_SCREEN_SELECTION "At least one screen must be selected."]
  else []

/-- The per-slot errors of the first loop of `validateTimeSlots`: a parse
failure of either endpoint, or `start >= end`, each yields one
`INVALID_TIME_FORMAT` error. -/
def slotFormatError (slot : TimeSlot) : List ValidationError :=
  match parseHHmm slot.startTime, parseHHmm slot.endTime with
  | some s, some e =>
    if s ≥ e then
      [makeError .INVALID_TIME_FORMAT
        ("Time slot startTime \"" ++ slot.startTime
          ++ "\" must be before endTime \"" ++ slot.endTime ++ "\".")]
    else []
  | _, _ =>
    [makeError .INVALID_TIME_FORMAT
      ("Time slot \"" ++ slot.startTime ++ " – " ++ slot.endTime
        ++ "\" contains an invalid HH:mm value.")]

/-- The errors pushed by the first loop of `validateTimeSlots`, in slot order. -/
def slotFormatErrors : List TimeSlot → List ValidationError
  | [] => []
  | slot :: rest => slotFormatError slot ++ slotFormatErrors rest

/-- Sort key of the comparator `(a, b) => parseHHmm(a.startTime) - parseHHmm(b.startTime)`
(all slots parse when the sort runs). -/
def startMinutes (slot : TimeSlot) : Nat :=
  (parseHHmm slot.startTime).getD 0

/-- Parsed end time of a slot (defined when the slot is well-formed). -/
def endMinutes (slot : TimeSlot) : Nat :=
  (parseHHmm slot.endTime).getD 0

/-- Stable insertion of a slot into a list sorted by ascending start time. -/
def insertSlot (x : TimeSlot) : List TimeSlot → List TimeSlot
  | [] => [x]
  | y :: ys =>
    if startMinutes x ≤ startMinutes y then x :: y :: ys
    else y :: insertSlot x ys

/-- `[...draft.timeSlots].sort((a, b) => parseHHmm(a.startTime) - parseHHmm(b.startTime))`.
`Array.prototype.sort` is stable and the comparator induces a total preorder,
so the result is the unique stable sort by ascending parsed start time, which
this insertion sort computes. -/
def sortSlots : List TimeSlot → List TimeSlot
  | [] => []
  | x :: xs => insertSlot x (sortSlots xs)

/-- The adjacent-pair scan of `validateTimeSlots`: for each `i`,
`parseHHmm(sorted[i].endTime) > parseHHmm(sorted[i+1].startTime)` pushes one
`OVERLAPPING_TIME_SLOTS` error. -/
def overlapErrors : List TimeSlot → List ValidationError
  | a :: b :: rest =>
    (if endMinutes a > startMinutes b then
      [makeError .OVERLAPPING_TIME_SLOTS
        ("Time slot \"" ++ a.startTime ++ "–" ++ a.endTime
          ++ "\" overlaps with \"" ++ b.startTime ++ "–" ++ b.endTime ++ "\".")]
    else []) ++ overlapErrors (b :: rest)
  | _ => []

/-- Rule 4: per-slot format/order errors; only when there are none, the
overlap scan over the slots sorted by start time. -/
def validateTimeSlots (draft : CampaignDraft) : List ValidationError :=
  let errors := slotFormatErrors draft.timeSlots
  if errors = [] then overlapErrors (sortSlots draft.timeSlots)
  else errors

/-- Rule 5: `sizeInMb > 50` → `MEDIA_SIZE_EXCEEDS_LIMIT`;
`type` not `"image"`/`"video"` → `MEDIA_TYPE_NOT_ALLOWED`; both may fire. -/
def validateMediaAsset (draft : CampaignDraft) : List ValidationError :=
  (if draft.mediaAsset.sizeInMb > 50 then
    [makeError .MEDIA_SIZE_EXCEEDS_LIMIT
      ("Media asset size " ++ toString draft.mediaAsset.sizeInMb
        ++ " MB exceeds the 50 MB limit.")]
  else [])
  ++
  (if draft.mediaAsset.type ≠ "image" ∧ draft.mediaAsset.type ≠ "video" then
    [makeError .MEDIA_TYPE_NOT_ALLOWED
      ("Media type \"" ++ draft.mediaAsset.type
        ++ "\" is not allowed. Must be \"image\" or \"video\".")]
  else [])

/-- `validateCampaignDraft`: the five rules concatenated in order. -/
def validateCampaignDraft (draft : CampaignDraft) : List ValidationError :=
  validateName draft ++ validateDateRange draft ++ validateScreenIds draft
    ++ validateTimeSlots draft ++ validateMediaAsset draft

-- ── Events and state machine (campaign.machine.ts) ──────────────────────────

/-- The event union. -/
inductive CampaignEvent where
  | start_creation
  | update_draft (draft : CampaignDraft)
  | validate
  | validation_result (result : CampaignValidationResult)
  | publish (campaignId : String)
  | system_error (err : SystemError)
deriving DecidableEq

/-- Discriminator for the `event.type === "SYSTEM_ERROR"` check. -/
def CampaignEvent.isSystemError : CampaignEvent → Bool
  | .system_error _ => true
  | _ => false

/-- The empty draft built by the `idle` + `START_CREATION` branch. -/
def emptyDraft : CampaignDraft :=
  { name := "", startDate := "", endDate := "", screenIds := [""]
    timeSlots := []
    mediaAsset := { url := "", type := "image", sizeInMb := 0 } }

/--
`transition(state, event)`: `SYSTEM_ERROR` is handled before the per-state
switch; inside each state, only the spec-defined events produce a new state
and everything else returns the input state unchanged.
-/
def transition (state : CampaignCreationState) (event : CampaignEvent) :
    CampaignCreationState :=
  match event with
  | .system_error e => .error e
  | _ =>
    match state, event with
    | .idle, .start_creation => .editing emptyDraft
    | .editing _, .update_draft d => .editing d
    | .editing d, .validate => .validating d
    | .validating d, .validation_result r =>
      match r with
      | .invalid e0 rest => .invalid d (e0 :: rest)
      | .conflict => .conflict_detected d
      | .valid => .ready_to_publish d
    | .invalid _ _, .update_draft d => .editing d
    | .conflict_detected _, .update_draft d => .editing d
    | .ready_to_publish _, .publish cid => .published cid
    | s, _ => s

-- ── Validate use case (validateCampaign.usecase.ts) ─────────────────────────

/--
`validateCampaign(state)`: no-op unless `editing`; dispatches `VALIDATE`,
runs the rule validator, builds a `CampaignValidationResult`
(`errors.length > 0 ? {invalid, [errors[0]!, ...errors.slice(1)]} : {valid}`),
and dispatches `VALIDATION_RESULT`.
-/
def validateCampaign (state : CampaignCreationState) : CampaignCreationState :=
  match state with
  | .editing _ =>
    let validatingState := transition state .validate
    match validatingState with
    | .validating draft =>
      let errors := validateCampaignDraft draft
      let result : CampaignValidationResult :=
        match errors with
        | e :: rest => .invalid e rest
        | [] => .valid
      transition validatingState (.validation_result result)
    | _ => state
  | _ => state

-- ── Boundary contract: the TimeSlotSchema HH:mm regex (campaign.schema.ts) ──

/--
The anchored regex `^([01]\d|2[0-3]):([0-5]\d)$` of `TimeSlotSchema`,
written over code points: `'0'` = 48, `'1'` = 49, `'2'` = 50, `'3'` = 51,
`'5'` = 53, `':'` = 58.
-/
def timeSlotRegexAccepts (value : String) : Bool :=
  match value.data with
  | [h1, h2, c, m1, m2] =>
    ((h1.toNat == 48 || h1.toNat == 49) && isDigitChar h2
      || h1.toNat == 50 && (48 ≤ h2.toNat && h2.toNat ≤ 51))
    && c.toNat == 58
    && (48 ≤ m1.toNat && m1.toNat ≤ 53) && isDigitChar m2
  | _ => false

-- ── Auxiliary definitions used by the verification ──────────────────────────

/-- The transition table of the specification (§4.5): the (state, event)
pairs for which a transition is defined.  `SYSTEM_ERROR` applies from any
state. -/
def inTransitionTable : CampaignCreationState → CampaignEvent → Bool
  | _, .system_error _ => true
  | .idle, .start_creation => true
  | .editing _, .update_draft _ => true
  | .editing _, .validate => true
  | .validating _, .validation_result _ => true
  | .invalid _ _, .update_draft _ => true
  | .conflict_detected _, .update_draft _ => true
  | .ready_to_publish _, .publish _ => true
  | _, _ => false

/-- Drive the machine from `idle` through a sequence of events. -/
def runEvents (events : List CampaignEvent) : CampaignCreationState :=
  events.foldl transition .idle

/-- `true` when the error list contains an error with the given code. -/
def hasCode (errs : List ValidationError) (c : ValidationErrorCode) : Bool :=
  errs.any (fun e => e.code == c)

/-- A slot is well-formed when both endpoints parse as HH:mm and the start
is strictly before the end. -/
def slotWellFormed (s : TimeSlot) : Bool :=
  match parseHHmm s.startTime, parseHHmm s.endTime with
  | some a, some b => decide (a < b)
  | _, _ => false

/-- A fully valid draft (the one used by the repository's rule tests). -/
def validDraft : CampaignDraft :=
  { name := "Summer Sale", startDate := "2026-06-01T00:00:00Z"
    endDate := "2026-06-30T23:59:59Z", screenIds := ["screen-1"]
    timeSlots := [⟨"08:00", "12:00"⟩, ⟨"13:00", "17:00"⟩]
    mediaAsset := { url := "https://example.com/asset.jpg", type := "image", sizeInMb := 10 } }

/-- A draft whose `startDate` does not parse. -/
def badDateDraft : CampaignDraft :=
  { name := "Summer Sale", startDate := "not-a-date"
    endDate := "2026-06-30T23:59:59Z", screenIds := ["screen-1"]
    timeSlots := []
    mediaAsset := { url := "https://example.com/asset.jpg", type := "image", sizeInMb := 10 } }

/-- A draft whose media asset violates both media rules:
size 50.0001 MB and a type outside the allowed set. -/
def badMediaDraft : CampaignDraft :=
  { name := "Summer Sale", startDate := "2026-06-01T00:00:00Z"
    endDate := "2026-06-30T23:59:59Z", screenIds := ["screen-1"]
    timeSlots := []
    mediaAsset := { url := "https://example.com/asset.gif", type := "gif", sizeInMb := 500001/10000 } }

/-- A draft with the overlapping slots `08:00–12:00` and `11:00–15:00`
from the specification's overlap example. -/
def overlapDraft : CampaignDraft :=
  { name := "Summer Sale", startDate := "2026-06-01T00:00:00Z"
    endDate := "2026-06-30T23:59:59Z", screenIds := ["screen-1"]
    timeSlots := [⟨"08:00", "12:00"⟩, ⟨"11:00", "15:00"⟩]
    mediaAsset := { url := "https://example.com/asset.jpg", type := "image", sizeInMb := 10 } }

-- ── Helper lemmas ───────────────────────────────────────────────────────────

lemma hasCode_append (a b : List ValidationError) (c : ValidationErrorCode) :
    hasCode (a ++ b) c = (hasCode a c || hasCode b c) := by
  simp [hasCode]

lemma validateName_code (d : CampaignDraft) (c : ValidationErrorCode)
    (h : c ≠ .EMPTY_NAME) : hasCode (validateName d) c = false := by
  unfold validateName
  split <;> simp [hasCode, makeError]
  exact fun h2 => h h2.symm

lemma validateDateRange_code (d : CampaignDraft) (c : ValidationErrorCode)
    (h1 : c ≠ .INVALID_DATE_FORMAT) (h2 : c ≠ .INVALID_DATE_RANGE) :
    hasCode (validateDateRange d) c = false := by
  unfold validateDateRange
  cases dateParse d.startDate <;> cases dateParse d.endDate <;>
    simp [hasCode, makeError] <;>
    first
    | exact fun h3 => h1 h3.symm
    | exact fun _ h3 => h2 h3.symm

lemma validateScreenIds_code (d : CampaignDraft) (c : ValidationErrorCode)
    (h : c ≠ .EMPTY_SCREEN_SELECTION) : hasCode (validateScreenIds d) c = false := by
  unfold validateScreenIds
  split <;> simp [hasCode, makeError]
  exact fun h2 => h h2.symm

lemma validateMediaAsset_code (d : CampaignDraft) (c : ValidationErrorCode)
    (h1 : c ≠ .MEDIA_SIZE_EXCEEDS_LIMIT) (h2 : c ≠ .MEDIA_TYPE_NOT_ALLOWED) :
    hasCode (validateMediaAsset d) c = false := by
  unfold validateMediaAsset
  rw [hasCode_append, Bool.or_eq_false_iff]
  constructor <;> split <;> simp [hasCode, makeError] <;>
    first
    | exact fun h3 => h1 h3.symm
    | exact fun h3 => h2 h3.symm

lemma slotFormatError_code (s : TimeSlot) (c : ValidationErrorCode)
    (h : c ≠ .INVALID_TIME_FORMAT) : hasCode (slotFormatError s) c = false := by
  unfold slotFormatError
  cases parseHHmm s.startTime <;> cases parseHHmm s.endTime <;>
    simp [hasCode, makeError] <;>
    first
    | exact fun h2 => h h2.symm
    | exact fun _ h2 => h h2.symm

lemma slotFormatErrors_code (l : List TimeSlot) (c : ValidationErrorCode)
    (h : c ≠ .INVALID_TIME_FORMAT) : hasCode (slotFormatErrors l) c = false := by
  induction l with
  | nil => rfl
  | cons s rest ih =>
    rw [slotFormatErrors, hasCode_append, ih, slotFormatError_code s c h]
    rfl

lemma overlapErrors_code (l : List TimeSlot) (c : ValidationErrorCode)
    (h : c ≠ .OVERLAPPING_TIME_SLOTS) : hasCode (overlapErrors l) c = false := by
  induction l with
  | nil => rfl
  | cons a t ih =>
    cases t with
    | nil => rfl
    | cons b rest =>
      rw [overlapErrors, hasCode_append]
      have h2 : hasCode (overlapErrors (b :: rest)) c = false := ih
      rw [h2]
      split <;> simp [hasCode, makeError]
      exact fun h3 => h h3.symm

lemma validateTimeSlots_code (d : CampaignDraft) (c : ValidationErrorCode)
    (h1 : c ≠ .INVALID_TIME_FORMAT) (h2 : c ≠ .OVERLAPPING_TIME_SLOTS) :
    hasCode (validateTimeSlots d) c = false := by
  unfold validateTimeSlots
  dsimp only
  split
  · exact overlapErrors_code _ c h2
  · exact slotFormatErrors_code _ c h1

lemma transition_invalid_cases (s : CampaignCreationState) (e : CampaignEvent)
    (d : CampaignDraft) (errs : List ValidationError)
    (h : transition s e = .invalid d errs) :
    s = .invalid d errs ∨ 1 ≤ errs.length := by
  cases s <;> cases e <;> simp_all [transition]
  case validating.validation_result d0 r =>
    cases r <;> simp_all
    rcases h with ⟨h1, h2⟩
    rw [← h2]
    simp

lemma foldl_invalid_nonempty (events : List CampaignEvent) :
    ∀ s : CampaignCreationState,
      (∀ d errs, s = .invalid d errs → 1 ≤ errs.length) →
      ∀ d errs, events.foldl transition s = .invalid d errs → 1 ≤ errs.length := by
  induction events with
  | nil => intro s hs d errs h; exact hs d errs h
  | cons e rest ih =>
    intro s hs d errs h
    refine ih (transition s e) ?_ d errs h
    intro d2 errs2 h2
    rcases transition_invalid_cases s e d2 errs2 h2 with h3 | h3
    · exact hs d2 errs2 h3
    · exact h3

lemma slotFormatError_nil_iff (s : TimeSlot) :
    slotFormatError s = [] ↔ slotWellFormed s = true := by
  unfold slotFormatError slotWellFormed
  cases parseHHmm s.startTime <;> cases parseHHmm s.endTime <;> simp

lemma slotFormatErrors_nil_iff (l : List TimeSlot) :
    slotFormatErrors l = [] ↔ ∀ s ∈ l, slotWellFormed s = true := by
  induction l with
  | nil => simp [slotFormatErrors]
  | cons a t ih =>
    rw [slotFormatErrors, List.append_eq_nil]
    simp [ih, slotFormatError_nil_iff]

lemma hasCode_overlapErrors_iff (l : List TimeSlot) :
    hasCode (overlapErrors l) .OVERLAPPING_TIME_SLOTS = true ↔
    ∃ i, ∃ h : i + 1 < l.length,
      endMinutes (l.get ⟨i, Nat.lt_of_succ_lt h⟩) >
        startMinutes (l.get ⟨i + 1, h⟩) := by
  induction l with
  | nil => simp [overlapErrors, hasCode]
  | cons a t ih =>
    cases t with
    | nil =>
      simp [overlapErrors, hasCode]
    | cons b rest =>
      rw [overlapErrors, hasCode_append]
      constructor
      · intro h
        rcases Bool.or_eq_true_iff.mp h with h1 | h1
        · by_cases hab : endMinutes a > startMinutes b
          · exact ⟨0, by simp, by simpa using hab⟩
          · rw [if_neg hab] at h1
            simp [hasCode] at h1
        · rcases ih.mp h1 with ⟨i, hlen, hp⟩
          refine ⟨i + 1, by simp at hlen ⊢; omega, ?_⟩
          simpa using hp
      · rintro ⟨i, hlen, hp⟩
        apply Bool.or_eq_true_iff.mpr
        cases i with
        | zero =>
          left
          simp at hp
          rw [if_pos hp]
          simp [hasCode, makeError]
        | succ j =>
          right
          apply ih.mpr
          refine ⟨j, by simp at hlen ⊢; omega, ?_⟩
          simpa using hp

-- ── Claim theorems ──────────────────────────────────────────────────────────

/-- C1, counterexample: the claim that `published` is left unchanged by every
event including `SYSTEM_ERROR` is false — from `published "x"`, the event
`SYSTEM_ERROR{message:"m"}` yields the `error` state, not `published "x"`. -/
theorem published_not_immune_to_system_error :
    transition (.published "x") (.system_error ⟨"m"⟩) ≠
      CampaignCreationState.published "x" := by decide

/-- C1 (amended): every event other than `SYSTEM_ERROR` leaves a `published`
state and an `error` state unchanged; `SYSTEM_ERROR` maps both `published`
and `error` to the `error` state carrying the event's message. -/
theorem terminal_states_amended (c : String) (m : SystemError)
    (e : CampaignEvent) (h : e.isSystemError = false) (m2 : SystemError) :
    transition (.published c) e = .published c ∧
    transition (.error m) e = .error m ∧
    transition (.published c) (.system_error m2) = .error m2 ∧
    transition (.error m) (.system_error m2) = .error m2 := by
  refine ⟨?_, ?_, rfl, rfl⟩ <;> cases e <;> simp_all [CampaignEvent.isSystemError] <;> rfl

/-- Witness for C1's amended theorem at concrete inputs. -/
theorem terminal_states_amended_witness :
    transition (.published "x") .validate = .published "x" ∧
    transition (.error ⟨"m"⟩) .validate = .error ⟨"m"⟩ ∧
    transition (.published "x") (.system_error ⟨"n"⟩) = .error ⟨"n"⟩ ∧
    transition (.error ⟨"m"⟩) (.system_error ⟨"n"⟩) = .error ⟨"n"⟩ :=
  terminal_states_amended "x" ⟨"m"⟩ .validate rfl ⟨"n"⟩

/-- C2: for every state (all eight variants) and every message, `transition`
on a `SYSTEM_ERROR` event yields the `error` state carrying that message —
the check precedes the per-state dispatch and preempts every other rule. -/
theorem system_error_precedence (s : CampaignCreationState) (m : SystemError) :
    transition s (.system_error m) = .error m := rfl

/-- C3: when the rule validator returns no errors, `validateCampaign` maps
`editing{draft}` to `ready_to_publish{draft}` with the same draft; and an
empty error list is the only outcome that leads to `ready_to_publish`. -/
theorem valid_draft_happy_path (d : CampaignDraft) :
    (validateCampaignDraft d = [] →
      validateCampaign (.editing d) = .ready_to_publish d) ∧
    (∀ d2, validateCampaign (.editing d) = .ready_to_publish d2 →
      validateCampaignDraft d = [] ∧ d2 = d) := by
  constructor
  · intro h
    simp only [validateCampaign, transition, h]
  · intro d2 h
    simp only [validateCampaign, transition] at h
    cases hv : validateCampaignDraft d with
    | nil => rw [hv] at h; simp only [transition] at h; cases h; exact ⟨rfl, rfl⟩
    | cons e rest => rw [hv] at h; simp only [transition] at h; cases h

/-- Witness for C3: the fully valid draft reaches `ready_to_publish`. -/
theorem valid_draft_happy_path_witness :
    validateCampaign (.editing validDraft) = .ready_to_publish validDraft :=
  (valid_draft_happy_path validDraft).1 (by decide)

/-- C4: for a draft all of whose slots are well-formed, the rule validator
emits `OVERLAPPING_TIME_SLOTS` exactly when, after sorting the slots by start
time ascending, some adjacent pair has the earlier slot's end time strictly
greater than the later slot's start time (ties are not overlaps); and
whenever any slot is malformed, no `OVERLAPPING_TIME_SLOTS` error is emitted. -/
theorem overlap_detection (d : CampaignDraft) :
    ((∀ s ∈ d.timeSlots, slotWellFormed s = true) →
      (hasCode (validateCampaignDraft d) .OVERLAPPING_TIME_SLOTS = true ↔
        ∃ i, ∃ h : i + 1 < (sortSlots d.timeSlots).length,
          endMinutes ((sortSlots d.timeSlots).get ⟨i, Nat.lt_of_succ_lt h⟩) >
            startMinutes ((sortSlots d.timeSlots).get ⟨i + 1, h⟩))) ∧
    ((∃ s ∈ d.timeSlots, slotWellFormed s = false) →
      hasCode (validateCampaignDraft d) .OVERLAPPING_TIME_SLOTS = false) := by
  have hreduce : hasCode (validateCampaignDraft d) .OVERLAPPING_TIME_SLOTS
      = hasCode (validateTimeSlots d) .OVERLAPPING_TIME_SLOTS := by
    unfold validateCampaignDraft
    rw [hasCode_append, hasCode_append, hasCode_append, hasCode_append,
      validateName_code _ _ (by simp), validateDateRange_code _ _ (by simp) (by simp),
      validateScreenIds_code _ _ (by simp),
      validateMediaAsset_code _ _ (by simp) (by simp)]
    simp
  constructor
  · intro hwf
    rw [hreduce]
    unfold validateTimeSlots
    dsimp only
    rw [if_pos (slotFormatErrors_nil_iff d.timeSlots |>.mpr hwf)]
    exact hasCode_overlapErrors_iff (sortSlots d.timeSlots)
  · rintro ⟨s, hs, hbad⟩
    rw [hreduce]
    unfold validateTimeSlots
    dsimp only
    rw [if_neg]
    · exact slotFormatErrors_code _ _ (by simp)
    · intro hnil
      have := (slotFormatErrors_nil_iff d.timeSlots).mp hnil s hs
      rw [this] at hbad
      cases hbad

/-- Witness for C4: the specification's example `08:00–12:00`, `11:00–15:00`
is reported as overlapping. -/
theorem overlap_detection_witness :
    hasCode (validateCampaignDraft overlapDraft) .OVERLAPPING_TIME_SLOTS = true :=
  ((overlap_detection overlapDraft).1 (by decide)).mpr ⟨0, by decide, by decide⟩

/-- C5: for every (state, event) pair with no transition listed in the table,
`transition` returns the input state itself unchanged.  Totality and absence
of exceptions hold by construction: `transition` is a total Lean function. -/
theorem noop_identity (s : CampaignCreationState) (e : CampaignEvent)
    (h : inTransitionTable s e = false) : transition s e = s := by
  cases s <;> cases e <;> simp_all [inTransitionTable] <;> rfl

/-- Witness for C5: `START_CREATION` from `ready_to_publish` is a no-op
(the repository's machine test). -/
theorem noop_identity_witness :
    inTransitionTable (.ready_to_publish validDraft) .start_creation = false ∧
    transition (.ready_to_publish validDraft) .start_creation
      = .ready_to_publish validDraft :=
  ⟨rfl, noop_identity _ _ rfl⟩

/-- C6: every `invalid` state produced by a sequence of transitions from
`idle`, or by `validateCampaign` on an `editing` state, carries at least one
validation error. -/
theorem invalid_states_nonempty :
    (∀ (events : List CampaignEvent) (d : CampaignDraft)
        (errs : List ValidationError),
      runEvents events = .invalid d errs → 1 ≤ errs.length) ∧
    (∀ (d d2 : CampaignDraft) (errs : List ValidationError),
      validateCampaign (.editing d) = .invalid d2 errs → 1 ≤ errs.length) := by
  constructor
  · intro events d errs h
    exact foldl_invalid_nonempty events .idle (by intro d2 e2 h2; cases h2) d errs h
  · intro d d2 errs h
    simp only [validateCampaign, transition] at h
    cases hv : validateCampaignDraft d with
    | nil => rw [hv] at h; simp [transition] at h
    | cons e rest =>
      rw [hv] at h; simp only [transition, CampaignCreationState.invalid.injEq] at h
      rw [← h.2]
      simp

/-- Witness for C6 on a concrete event sequence reaching `invalid`. -/
theorem invalid_states_nonempty_witness :
    1 ≤ [makeError .EMPTY_NAME "Name is empty"].length :=
  invalid_states_nonempty.1
    [.start_creation, .validate,
      .validation_result (.invalid (makeError .EMPTY_NAME "Name is empty") [])]
    emptyDraft [makeError .EMPTY_NAME "Name is empty"] rfl

/-- C7: if either date fails to parse the date rule yields the single
`INVALID_DATE_FORMAT` error and no range check happens; otherwise parsed
start ≥ parsed end yields `INVALID_DATE_RANGE`, and start < end yields no
error. -/
theorem date_rule (d : CampaignDraft) :
    ((dateParse d.startDate = none ∨ dateParse d.endDate = none) →
      validateDateRange d =
        [makeError .INVALID_DATE_FORMAT
          "startDate and endDate must be valid ISO 8601 strings."]) ∧
    (∀ s e : Int, dateParse d.startDate = some s → dateParse d.endDate = some e →
      ((s ≥ e → validateDateRange d =
          [makeError .INVALID_DATE_RANGE "startDate must be before endDate."]) ∧
       (s < e → validateDateRange d = []))) := by
  constructor
  · intro h
    rcases h with h | h
    · simp only [validateDateRange, h]
    · rcases hs : dateParse d.startDate with _ | s <;>
        simp only [validateDateRange, h, hs]
  · intro s e hs he
    simp only [validateDateRange, hs, he]
    constructor
    · intro hge; rw [if_pos hge]
    · intro hlt; rw [if_neg (by omega)]

/-- Witness for C7 at an unparseable start date. -/
theorem date_rule_witness :
    validateDateRange badDateDraft =
      [makeError .INVALID_DATE_FORMAT
        "startDate and endDate must be valid ISO 8601 strings."] :=
  (date_rule badDateDraft).1 (Or.inl rfl)

/-- C8: the rule validator emits `MEDIA_SIZE_EXCEEDS_LIMIT` exactly when
`sizeInMb > 50` (so 50 passes and any strictly larger value fails), and
`MEDIA_TYPE_NOT_ALLOWED` exactly when the type is neither `"image"` nor
`"video"`; both may fire together. -/
theorem media_rule (d : CampaignDraft) :
    (hasCode (validateCampaignDraft d) .MEDIA_SIZE_EXCEEDS_LIMIT = true ↔
      d.mediaAsset.sizeInMb > 50) ∧
    (hasCode (validateCampaignDraft d) .MEDIA_TYPE_NOT_ALLOWED = true ↔
      (d.mediaAsset.type ≠ "image" ∧ d.mediaAsset.type ≠ "video")) := by
  have hsize : hasCode (validateCampaignDraft d) .MEDIA_SIZE_EXCEEDS_LIMIT
      = hasCode (validateMediaAsset d) .MEDIA_SIZE_EXCEEDS_LIMIT := by
    unfold validateCampaignDraft
    rw [hasCode_append, hasCode_append, hasCode_append, hasCode_append,
      validateName_code _ _ (by simp), validateDateRange_code _ _ (by simp) (by simp),
      validateScreenIds_code _ _ (by simp),
      validateTimeSlots_code _ _ (by simp) (by simp)]
    simp
  have htype : hasCode (validateCampaignDraft d) .MEDIA_TYPE_NOT_ALLOWED
      = hasCode (validateMediaAsset d) .MEDIA_TYPE_NOT_ALLOWED := by
    unfold validateCampaignDraft
    rw [hasCode_append, hasCode_append, hasCode_append, hasCode_append,
      validateName_code _ _ (by simp), validateDateRange_code _ _ (by simp) (by simp),
      validateScreenIds_code _ _ (by simp),
      validateTimeSlots_code _ _ (by simp) (by simp)]
    simp
  rw [hsize, htype]
  unfold validateMediaAsset
  constructor
  · rw [hasCode_append]
    constructor
    · intro h
      by_contra hc
      rw [if_neg hc] at h
      split at h <;> simp [hasCode, makeError] at h
    · intro h
      rw [if_pos h]
      simp [hasCode, makeError]
  · rw [hasCode_append]
    constructor
    · intro h
      by_contra hc
      rw [if_neg hc] at h
      split at h <;> simp [hasCode, makeError] at h
    · intro h
      rw [if_pos h]
      simp [hasCode, makeError]

/-- Witness for C8: size 50.0001 MB with type `"gif"` fires both errors. -/
theorem media_rule_witness :
    hasCode (validateCampaignDraft badMediaDraft) .MEDIA_SIZE_EXCEEDS_LIMIT = true ∧
    hasCode (validateCampaignDraft badMediaDraft) .MEDIA_TYPE_NOT_ALLOWED = true :=
  ⟨(media_rule badMediaDraft).1.mpr (by norm_num [badMediaDraft]),
   (media_rule badMediaDraft).2.mpr (by simp [badMediaDraft])⟩

/-- C9: a string matches the boundary contract's HH:mm regex
(`TimeSlotSchema`) if and only if the domain parser `parseHHmm` succeeds on
it — the two layers accept exactly the same time strings. -/
theorem hhmm_boundary_domain_agreement (s : String) :
    timeSlotRegexAccepts s = true ↔ (parseHHmm s).isSome = true := by
  obtain ⟨l⟩ := s
  rcases l with _ | ⟨c1, _ | ⟨c2, _ | ⟨c3, _ | ⟨c4, _ | ⟨c5, _ | ⟨c6, rest⟩⟩⟩⟩⟩⟩ <;>
    simp only [timeSlotRegexAccepts, parseHHmm, isDigitChar, digitVal,
      Bool.and_eq_true, Bool.or_eq_true, beq_iff_eq, decide_eq_true_eq,
      apply_ite Option.isSome, Option.isSome_none, Option.isSome_some,
      ite_eq_iff] <;>
    simp <;> omega

/-- Witness for C9 at a concrete accepted string. -/
theorem hhmm_boundary_domain_agreement_witness :
    (parseHHmm "08:30").isSome = true :=
  (hhmm_boundary_domain_agreement "08:30").mp (by decide)

/-- C10: the screen rule looks only at the length of `screenIds`, so a draft
whose `screenIds` is `[""]` — exactly the default draft that
`START_CREATION` builds from `idle` — produces no `EMPTY_SCREEN_SELECTION`
error; the content of the identifiers is never checked. -/
theorem screen_rule_blank_ids :
    (∀ d : CampaignDraft, d.screenIds = [""] →
      hasCode (validateCampaignDraft d) .EMPTY_SCREEN_SELECTION = false) ∧
    (∀ d d2 : CampaignDraft, d.screenIds.length = d2.screenIds.length →
      validateScreenIds d = validateScreenIds d2) ∧
    transition .idle .start_creation = .editing emptyDraft ∧
    emptyDraft.screenIds = [""] := by
  refine ⟨?_, ?_, rfl, rfl⟩
  · intro d hd
    unfold validateCampaignDraft
    rw [hasCode_append, hasCode_append, hasCode_append, hasCode_append,
      validateName_code _ _ (by simp), validateDateRange_code _ _ (by simp) (by simp),
      validateTimeSlots_code _ _ (by simp) (by simp),
      validateMediaAsset_code _ _ (by simp) (by simp)]
    have : validateScreenIds d = [] := by
      unfold validateScreenIds
      rw [hd]
      rfl
    rw [this]
    rfl
  · intro d d2 h
    unfold validateScreenIds
    rw [h]

/-- Witness for C10 at the default draft. -/
theorem screen_rule_blank_ids_witness :
    hasCode (validateCampaignDraft emptyDraft) .EMPTY_SCREEN_SELECTION = false :=
  screen_rule_blank_ids.1 emptyDraft rfl
